import Mathlib

/-!
Shallow embedding of the abuse-mitigation core of the gdghacks-soon
repository: the spam detector (src/lib/spamDetection.ts), the rate limiter
(src/lib/rateLimiter.ts), the email validator (src/lib/emailValidator.ts),
the subscription manager (src/lib/emailSubscription.ts) and the two
response branches of the subscribe endpoint that matter for the honeypot
deception property.

JavaScript numbers holding millisecond epoch timestamps and counters are
modelled as `Int` (all values are exact integers far below 2^53, where JS
arithmetic is exact).  Heuristic confidences (0, 0.5, 0.6, ..., 1.0) are
modelled as `ℚ`; every comparison the code performs on them involves sums
of at most five one-decimal values, which JS floats order the same way as
the exact rationals on every path the theorems below touch.
-/

/-! ## Generic string / list helpers (JS semantics) -/

/-- Does `pat` occur as a leading segment of `l`?  (Bool version, used to
implement substring and startsWith tests.) -/
def leadsWith : List Char → List Char → Bool
  | [], _ => true
  | _ :: _, [] => false
  | p :: ps, c :: cs => p == c && leadsWith ps cs

/-- Does `pat` occur as a contiguous subsequence of `l`?  Implements the
JS `String.prototype.includes` / plain-substring regex test. -/
def containsSeq (pat : List Char) : List Char → Bool
  | [] => leadsWith pat []
  | l@(_ :: t) => leadsWith pat l || containsSeq pat t

/-- Case-sensitive substring test on strings. -/
def containsStr (s pat : String) : Bool :=
  containsSeq pat.toList s.toList

/-- ASCII lower-casing of a whole string (JS `toLowerCase` restricted to
the ASCII range, which is all the source's patterns use). -/
def lowerStr (s : String) : String :=
  String.mk (s.toList.map Char.toLower)

/-- Case-insensitive substring test: a `/pat/i` regex whose pattern is a
plain literal. -/
def containsStrCI (s pat : String) : Bool :=
  containsSeq (pat.toList.map Char.toLower) (s.toList.map Char.toLower)

/-- Case-sensitive `^pat` test (JS `startsWith`, anchored regex literal). -/
def strStarts (s pat : String) : Bool :=
  leadsWith pat.toList s.toList

/-- Case-insensitive `^pat` test. -/
def strStartsCI (s pat : String) : Bool :=
  leadsWith (pat.toList.map Char.toLower) (s.toList.map Char.toLower)

/-- Case-sensitive `pat$` test (anchored at the end). -/
def strEnds (s pat : String) : Bool :=
  leadsWith pat.toList.reverse s.toList.reverse

/-- Case-insensitive `pat$` test. -/
def strEndsCI (s pat : String) : Bool :=
  leadsWith (pat.toList.map Char.toLower).reverse (s.toList.map Char.toLower).reverse

/-- The WhiteSpace and LineTerminator set of JS `String.prototype.trim`. -/
def jsWhitespace (c : Char) : Bool :=
  c == ' ' || c == '\t' || c == '\n' || c == '\r' ||
  c == Char.ofNat 11 || c == Char.ofNat 12 || c == Char.ofNat 0xA0 ||
  c == Char.ofNat 0x1680 || (0x2000 ≤ c.toNat && c.toNat ≤ 0x200A) ||
  c == Char.ofNat 0x2028 || c == Char.ofNat 0x2029 || c == Char.ofNat 0x202F ||
  c == Char.ofNat 0x205F || c == Char.ofNat 0x3000 || c == Char.ofNat 0xFEFF

/-- Character list of `trim`: drop JS whitespace from both ends. -/
def trimChars (l : List Char) : List Char :=
  ((l.dropWhile jsWhitespace).reverse.dropWhile jsWhitespace).reverse

/-- JS `String.prototype.trim`. -/
def jsTrim (s : String) : String :=
  String.mk (trimChars s.toList)

/-- JS `String.prototype.split(sep)` for a single-character separator. -/
def splitOnChar (sep : Char) : List Char → List (List Char)
  | [] => [[]]
  | c :: rest =>
    let r := splitOnChar sep rest
    if c == sep then [] :: r
    else
      match r with
      | h :: t => (c :: h) :: t
      | [] => [[c]]

/-- Replace the first element satisfying `p` by its image under `f`
(the list-store analogue of a Firestore `updateDoc` on the document the
query returned). -/
def updateFirst (p : α → Bool) (f : α → α) : List α → List α
  | [] => []
  | x :: xs => if p x then f x :: xs else x :: updateFirst p f xs

/-- JS `Math.max` on two exact rationals. -/
def qmax (a b : ℚ) : ℚ := if a < b then b else a

/-! ## Spam detector (src/lib/spamDetection.ts) -/

/-- Result record of every spam sub-check and of `detectSpam` itself. -/
structure SpamCheckResult where
  isSpam : Bool
  reason : Option String
  confidence : ℚ
  flags : List String
  deriving DecidableEq, Repr

/-- checkHoneypot: the honeypot field should be empty - if it's filled
(truthy and not whitespace-only), it's a bot. -/
def checkHoneypot (honeypotValue : Option String) : SpamCheckResult :=
  match honeypotValue with
  | some v =>
    if v ≠ "" ∧ jsTrim v ≠ "" then
      { isSpam := true, reason := some "Honeypot field was filled",
        confidence := 1, flags := ["honeypot-filled"] }
    else
      { isSpam := false, reason := none, confidence := 0, flags := [] }
  | none => { isSpam := false, reason := none, confidence := 0, flags := [] }

/-- checkSubmissionTiming: `!clientTimestamp` is true both for a missing
timestamp and for the (JS-falsy) value 0. -/
def checkSubmissionTiming (now : Int) (clientTimestamp : Option Int) : SpamCheckResult :=
  match clientTimestamp with
  | none => { isSpam := false, reason := none, confidence := 0, flags := [] }
  | some t =>
    if t = 0 then { isSpam := false, reason := none, confidence := 0, flags := [] }
    else
      let timeDiff := now - t
      if timeDiff < 2000 then
        { isSpam := true, reason := some "Form submitted too quickly (possible bot)",
          confidence := mkRat 9 10, flags := ["submission-too-fast"] }
      else if timeDiff > 3600000 then
        { isSpam := true, reason := some "Form submitted after suspicious delay",
          confidence := mkRat 6 10, flags := ["submission-delayed"] }
      else
        { isSpam := false, reason := none, confidence := 0, flags := [] }

/-- The `/java(?!script)/i` pattern: an occurrence of "java" (on the
lower-cased text) that is not an occurrence of "javascript". -/
def javaNotScript : List Char → Bool
  | [] => false
  | l@(_ :: t) =>
    (leadsWith "java".toList l && !leadsWith "javascript".toList l) || javaNotScript t

/-- The fixed bot-signature pattern list of checkUserAgent, in source
order; each entry is the test the corresponding `/…/i` regex performs. -/
def botPatterns : List (String → Bool) :=
  [fun ua => containsStrCI ua "bot",
   fun ua => containsStrCI ua "crawler",
   fun ua => containsStrCI ua "spider",
   fun ua => containsStrCI ua "scraper",
   fun ua => containsStrCI ua "curl",
   fun ua => containsStrCI ua "wget",
   fun ua => containsStrCI ua "python",
   fun ua => javaNotScript (ua.toList.map Char.toLower),
   fun ua => containsStrCI ua "go-http",
   fun ua => containsStrCI ua "okhttp",
   fun ua => containsStrCI ua "axios",
   fun ua => containsStrCI ua "node-fetch"]

/-- checkUserAgent: missing/blank 0.8; bot signature 0.9 (one flag pushed
per matching pattern); length < 20 max 0.7; MSIE 6/7 max 0.6; spam only
when the accumulated confidence exceeds 0.5, otherwise flags are dropped. -/
def checkUserAgent (userAgent : String) : SpamCheckResult :=
  if userAgent = "" ∨ jsTrim userAgent = "" then
    { isSpam := true, reason := some "Missing User-Agent header",
      confidence := mkRat 8 10, flags := ["no-user-agent"] }
  else
    let botHits := botPatterns.filter (fun p => p userAgent)
    let flags1 := botHits.map (fun _ => "bot-user-agent")
    let conf1 : ℚ := if botHits.length > 0 then mkRat 9 10 else 0
    let flags2 := if userAgent.length < 20 then flags1 ++ ["short-user-agent"] else flags1
    let conf2 := if userAgent.length < 20 then qmax conf1 (mkRat 7 10) else conf1
    let outdated := containsStr userAgent "MSIE 6.0" || containsStr userAgent "MSIE 7.0"
    let flags3 := if outdated then flags2 ++ ["outdated-browser"] else flags2
    let conf3 := if outdated then qmax conf2 (mkRat 6 10) else conf2
    if conf3 > mkRat 1 2 then
      { isSpam := true, reason := some "Suspicious User-Agent detected",
        confidence := conf3, flags := flags3 }
    else
      { isSpam := false, reason := none, confidence := 0, flags := [] }

/-- checkIPReputation: private/loopback ranges set confidence 0.5, but the
spam branch requires strictly more than 0.5, so the check always returns
the non-spam record. -/
def checkIPReputation (ip : String) : SpamCheckResult :=
  let priv :=
    strStarts ip "127." || strStarts ip "10." || strStarts ip "192.168." ||
    strStarts ip "172.16." || ip == "::1" || strStarts ip "fc00:" || strStarts ip "fd00:"
  let flags := if priv then ["private-ip"] else []
  let confidence : ℚ := if priv then mkRat 1 2 else 0
  if confidence > mkRat 1 2 then
    { isSpam := true, reason := some "Suspicious IP address detected",
      confidence := confidence, flags := flags }
  else
    { isSpam := false, reason := none, confidence := 0, flags := [] }

/-- Lower-case consonants of the `/[bcdfghjklmnpqrstvwxyz]{6,}/i` class. -/
def isConsonant (c : Char) : Bool :=
  "bcdfghjklmnpqrstvwxyz".toList.contains c.toLower

/-- Is there a run of 6 or more consecutive consonants? -/
def hasConsRun6 : List Char → Bool
  | [] => false
  | l@(_ :: t) =>
    ((l.take 6).length == 6 && (l.take 6).all isConsonant) || hasConsRun6 t

/-- checkEmailPatterns: heuristics on the local part (`email.split('@')[0]`,
i.e. everything before the first `@`). -/
def checkEmailPatterns (email : String) : SpamCheckResult :=
  let localPart := email.toList.takeWhile (fun c => c != '@')
  let flags1 := if localPart.length > 50 then ["long-local-part"] else []
  let conf1 : ℚ := if localPart.length > 50 then mkRat 1 2 else 0
  let numericOnly := localPart ≠ [] ∧ localPart.all Char.isDigit
  let flags2 := if numericOnly then flags1 ++ ["numeric-only"] else flags1
  let conf2 := if numericOnly then qmax conf1 (mkRat 6 10) else conf1
  let flags3 := if hasConsRun6 localPart then flags2 ++ ["random-string"] else flags2
  let conf3 := if hasConsRun6 localPart then qmax conf2 (mkRat 7 10) else conf2
  let specialCharCount := (localPart.filter (fun c => !c.isAlphanum)).length
  let flags4 := if specialCharCount > 5 then flags3 ++ ["many-special-chars"] else flags3
  let conf4 := if specialCharCount > 5 then qmax conf3 (mkRat 6 10) else conf3
  if conf4 > mkRat 1 2 then
    { isSpam := true, reason := some "Email shows suspicious patterns",
      confidence := conf4, flags := flags4 }
  else
    { isSpam := false, reason := none, confidence := 0, flags := [] }

/-- Input record of detectSpam. -/
structure SpamInput where
  email : String
  honeypot : Option String
  timestamp : Option Int
  userAgent : String
  ip : String
  deriving DecidableEq, Repr

/-- The five sub-check results, in the order `detectSpam` iterates them. -/
def subChecks (now : Int) (d : SpamInput) : List SpamCheckResult :=
  [checkHoneypot d.honeypot,
   checkSubmissionTiming now d.timestamp,
   checkUserAgent d.userAgent,
   checkIPReputation d.ip,
   checkEmailPatterns d.email]

/-- Accumulator of detectSpam's aggregation loop: allFlags, maxConfidence
and spamReason, exactly the three mutable locals of the source. -/
structure AggState where
  allFlags : List String
  maxConfidence : ℚ
  spamReason : String
  deriving DecidableEq, Repr

/-- One iteration of the aggregation loop body (before the short-circuit
test): push the flags, update the running maximum and its reason. -/
def stepAgg (st : AggState) (r : SpamCheckResult) : AggState :=
  { allFlags := st.allFlags ++ r.flags,
    maxConfidence := if r.confidence > st.maxConfidence then r.confidence else st.maxConfidence,
    spamReason := if r.confidence > st.maxConfidence then r.reason.getD "" else st.spamReason }

/-- Is a sub-check definitive spam (triggers the early return)? -/
def isDefinitive (r : SpamCheckResult) : Bool :=
  r.isSpam && r.confidence ≥ mkRat 9 10

/-- The aggregation loop of detectSpam: returns the early-return record if
a definitive check is hit, together with the accumulator state reached. -/
def detectLoop : List SpamCheckResult → AggState → Option SpamCheckResult × AggState
  | [], st => (none, st)
  | r :: rest, st =>
    let st' := stepAgg st r
    if isDefinitive r then
      (some { isSpam := true, reason := r.reason, confidence := r.confidence,
              flags := st'.allFlags }, st')
    else detectLoop rest st'

/-- Master spam detection function combining all five checks
(`detectSpam` of src/lib/spamDetection.ts, with the server clock passed
explicitly). -/
def detectSpam (now : Int) (d : SpamInput) : SpamCheckResult :=
  let checks := subChecks now d
  match detectLoop checks { allFlags := [], maxConfidence := 0, spamReason := "" } with
  | (some r, _) => r
  | (none, st) =>
    let avgConfidence := (checks.map SpamCheckResult.confidence).sum / mkRat (checks.length) 1
    if avgConfidence > mkRat 1 2 ∨ st.allFlags.length ≥ 3 then
      { isSpam := true,
        reason := some (if st.spamReason = "" then "Multiple spam indicators detected"
                        else st.spamReason),
        confidence := st.maxConfidence,
        flags := st.allFlags }
    else
      { isSpam := false, reason := none, confidence := st.maxConfidence,
        flags := st.allFlags }

/-! ## Rate limiter (src/lib/rateLimiter.ts)

Each `check*RateLimit` function is modelled as a pure transition on the
persisted counter document for its key: it takes the current stored
document (`none` when the document does not exist) and the current time,
and returns the `RateLimitResult` together with the store content after
the call (identical to the input when the source returns without
`setDoc`). -/

/-- Per-scope hourly/daily thresholds of RATE_LIMIT_CONFIG. -/
structure ScopeLimits where
  hourly : Int
  daily : Int
  deriving DecidableEq, Repr

/-- The module-wide rate limiting configuration record. -/
structure RateLimitConfigT where
  perIP : ScopeLimits
  perEmail : ScopeLimits
  globalScope : ScopeLimits
  blockDuration : Int
  deriving DecidableEq, Repr

/-- RATE_LIMIT_CONFIG: 3/10 per IP, 2/5 per email, 500/5000 global,
block for 3600 seconds. -/
def RATE_LIMIT_CONFIG : RateLimitConfigT :=
  { perIP := { hourly := 3, daily := 10 },
    perEmail := { hourly := 2, daily := 5 },
    globalScope := { hourly := 500, daily := 5000 },
    blockDuration := 3600 }

/-- The persisted counter document (RateLimitData of the source). -/
structure RateLimitData where
  count : Int
  windowStart : Int
  lastAttempt : Int
  blockedUntil : Option Int
  totalAttempts : Int
  deriving DecidableEq, Repr

/-- The result record returned by every rate-limit check. -/
structure RateLimitResult where
  allowed : Bool
  retryAfter : Option Int
  reason : Option String
  remaining : Option Int
  deriving DecidableEq, Repr

/-- The JS guard `existing.blockedUntil && existing.blockedUntil > now`:
a null or 0 `blockedUntil` is falsy. -/
def jsBlocked (blockedUntil : Option Int) (now : Int) : Bool :=
  match blockedUntil with
  | some b => if b ≠ 0 ∧ b > now then true else false
  | none => false

/-- `Math.ceil(d / 1000)` for the (always positive on the paths that use
it) millisecond difference `d`. -/
def msToSecCeil (d : Int) : Int :=
  ((d + 999).toNat / 1000 : Nat)

/-- checkIPRateLimit, as a transition on the `rateLimits/byIP` document of
the hashed IP. -/
def checkIPRateLimit (store : Option RateLimitData) (now : Int) :
    RateLimitResult × Option RateLimitData :=
  let oneHourAgo := now - 3600000
  let oneDayAgo := now - 86400000
  match store with
  | none =>
    let data : RateLimitData :=
      { count := 1, windowStart := now, lastAttempt := now,
        blockedUntil := none, totalAttempts := 1 }
    ({ allowed := true, retryAfter := none, reason := none,
       remaining := some (RATE_LIMIT_CONFIG.perIP.hourly - data.count) }, some data)
  | some existing =>
    if jsBlocked existing.blockedUntil now then
      ({ allowed := false,
         retryAfter := some (msToSecCeil (existing.blockedUntil.getD 0 - now)),
         reason := some "IP temporarily blocked due to excessive requests",
         remaining := none }, store)
    else if existing.windowStart < oneHourAgo then
      let data : RateLimitData :=
        { count := 1, windowStart := now, lastAttempt := now,
          blockedUntil := none, totalAttempts := existing.totalAttempts + 1 }
      ({ allowed := true, retryAfter := none, reason := none,
         remaining := some (RATE_LIMIT_CONFIG.perIP.hourly - data.count) }, some data)
    else
      let data : RateLimitData :=
        { existing with
          count := existing.count + 1, lastAttempt := now,
          totalAttempts := existing.totalAttempts + 1 }
      if data.count > RATE_LIMIT_CONFIG.perIP.hourly then
        let data2 := { data with
          blockedUntil := some (now + RATE_LIMIT_CONFIG.blockDuration * 1000) }
        ({ allowed := false, retryAfter := some RATE_LIMIT_CONFIG.blockDuration,
           reason := some "Too many attempts from your IP. Limit: 3 per hour",
           remaining := none }, some data2)
      else if existing.windowStart > oneDayAgo ∧ data.count > RATE_LIMIT_CONFIG.perIP.daily then
        let data2 := { data with
          blockedUntil := some (now + RATE_LIMIT_CONFIG.blockDuration * 3 * 1000) }
        ({ allowed := false, retryAfter := some (RATE_LIMIT_CONFIG.blockDuration * 3),
           reason := some "Daily limit exceeded. Limit: 10 per day",
           remaining := none }, some data2)
      else
        ({ allowed := true, retryAfter := none, reason := none,
           remaining := some (RATE_LIMIT_CONFIG.perIP.hourly - data.count) }, some data)

/-- checkEmailRateLimit, as a transition on the `rateLimits/byEmail`
document of the hashed lower-cased email.  Unlike the per-IP check it has
no daily-limit branch at all; its only rejection paths are the standing
block and the hourly limit, whose block lasts `blockDuration * 2`. -/
def checkEmailRateLimit (store : Option RateLimitData) (now : Int) :
    RateLimitResult × Option RateLimitData :=
  let oneHourAgo := now - 3600000
  match store with
  | none =>
    let data : RateLimitData :=
      { count := 1, windowStart := now, lastAttempt := now,
        blockedUntil := none, totalAttempts := 1 }
    ({ allowed := true, retryAfter := none, reason := none,
       remaining := some (RATE_LIMIT_CONFIG.perEmail.hourly - data.count) }, some data)
  | some existing =>
    if jsBlocked existing.blockedUntil now then
      ({ allowed := false,
         retryAfter := some (msToSecCeil (existing.blockedUntil.getD 0 - now)),
         reason := some "This email address has been used too many times recently",
         remaining := none }, store)
    else if existing.windowStart < oneHourAgo then
      let data : RateLimitData :=
        { count := 1, windowStart := now, lastAttempt := now,
          blockedUntil := none, totalAttempts := existing.totalAttempts + 1 }
      ({ allowed := true, retryAfter := none, reason := none,
         remaining := some (RATE_LIMIT_CONFIG.perEmail.hourly - data.count) }, some data)
    else
      let data : RateLimitData :=
        { existing with
          count := existing.count + 1, lastAttempt := now,
          totalAttempts := existing.totalAttempts + 1 }
      if data.count > RATE_LIMIT_CONFIG.perEmail.hourly then
        let data2 := { data with
          blockedUntil := some (now + RATE_LIMIT_CONFIG.blockDuration * 2 * 1000) }
        ({ allowed := false, retryAfter := some (RATE_LIMIT_CONFIG.blockDuration * 2),
           reason := some "This email was submitted too many times. Limit: 2 per hour",
           remaining := none }, some data2)
      else
        ({ allowed := true, retryAfter := none, reason := none,
           remaining := some (RATE_LIMIT_CONFIG.perEmail.hourly - data.count) }, some data)

/-- checkGlobalRateLimit, as a transition on the single
`rateLimits/global/stats/hourly` document.  There is no standing-block
guard; the rejection path returns before the trailing `setDoc`, so the
store is unchanged on rejection. -/
def checkGlobalRateLimit (store : Option RateLimitData) (now : Int) :
    RateLimitResult × Option RateLimitData :=
  let oneHourAgo := now - 3600000
  match store with
  | none =>
    let data : RateLimitData :=
      { count := 1, windowStart := now, lastAttempt := now,
        blockedUntil := none, totalAttempts := 1 }
    ({ allowed := true, retryAfter := none, reason := none,
       remaining := some (RATE_LIMIT_CONFIG.globalScope.hourly - data.count) }, some data)
  | some existing =>
    if existing.windowStart < oneHourAgo then
      let data : RateLimitData :=
        { count := 1, windowStart := now, lastAttempt := now,
          blockedUntil := none, totalAttempts := existing.totalAttempts + 1 }
      ({ allowed := true, retryAfter := none, reason := none,
         remaining := some (RATE_LIMIT_CONFIG.globalScope.hourly - data.count) }, some data)
    else
      let data : RateLimitData :=
        { existing with
          count := existing.count + 1, lastAttempt := now,
          totalAttempts := existing.totalAttempts + 1 }
      if data.count > RATE_LIMIT_CONFIG.globalScope.hourly then
        ({ allowed := false, retryAfter := some 300,
           reason := some "System experiencing high traffic. Please try again in a few minutes.",
           remaining := none }, store)
      else
        ({ allowed := true, retryAfter := none, reason := none,
           remaining := some (RATE_LIMIT_CONFIG.globalScope.hourly - data.count) }, some data)

/-! ## Email validator (src/lib/emailValidator.ts) -/

/-- Severity levels of a validation failure. -/
inductive Severity
  | low
  | medium
  | high
  deriving DecidableEq, Repr

/-- Result record of every validation check and of `validateEmail`. -/
structure EmailValidationResult where
  valid : Bool
  reason : Option String
  severity : Option Severity
  deriving DecidableEq, Repr

/-- Characters admitted in the local part by EMAIL_REGEX:
`[a-zA-Z0-9.!#$%&'*+\/=?^_`\x7b|\x7d~-]` (the apostrophe, backtick and
braces are written via their codes). -/
def isLocalChar (c : Char) : Bool :=
  c.isAlphanum ||
  ['.', '!', '#', '$', '%', '&', Char.ofNat 39, '*', '+', '/', '=', '?', '^', '_',
   Char.ofNat 96, Char.ofNat 123, '|', Char.ofNat 125, '~', '-'].contains c

/-- One DNS label of EMAIL_REGEX's domain:
`[a-zA-Z0-9](?:[a-zA-Z0-9-]{0,61}[a-zA-Z0-9])?`, i.e. 1 to 63 characters,
alphanumeric or hyphen, starting and ending alphanumeric. -/
def isDomainLabel (l : List Char) : Bool :=
  1 ≤ l.length && l.length ≤ 63 &&
  l.all (fun c => c.isAlphanum || c == '-') &&
  (match l.head? with | some c => c.isAlphanum | none => false) &&
  (match l.getLast? with | some c => c.isAlphanum | none => false)

/-- EMAIL_REGEX.test: since neither character class admits `@`, the regex
matches exactly the strings with a single `@`, a non-empty local part of
local-class characters, and a dot-separated list of valid labels as the
domain. -/
def emailRegexTest (email : String) : Bool :=
  match splitOnChar '@' email.toList with
  | [localPart, domainPart] =>
    localPart ≠ [] && localPart.all isLocalChar &&
    (splitOnChar '.' domainPart).all isDomainLabel
  | _ => false

/-- validateEmailFormat: RFC 5321/5322-shape checks, in source order. -/
def validateEmailFormat (email : String) : EmailValidationResult :=
  if email.length > 254 then
    { valid := false, reason := some "Email address is too long (max 254 characters)",
      severity := some Severity.low }
  else if email.length < 3 then
    { valid := false, reason := some "Email address is too short",
      severity := some Severity.low }
  else if !(email.toList.contains '@') then
    { valid := false, reason := some "Email address must contain @",
      severity := some Severity.low }
  else
    -- const [local, ...domainParts] = email.split('@');
    -- const domain = domainParts.join('@');
    let localPart := email.toList.takeWhile (fun c => c != '@')
    let domain := (email.toList.dropWhile (fun c => c != '@')).drop 1
    if localPart.length > 64 then
      { valid := false, reason := some "Local part of email is too long (max 64 characters)",
        severity := some Severity.low }
    else if domain = [] ∨ !(domain.contains '.') then
      { valid := false, reason := some "Invalid email domain",
        severity := some Severity.low }
    else if !(emailRegexTest email) then
      { valid := false, reason := some "Email address format is invalid",
        severity := some Severity.low }
    else
      { valid := true, reason := none, severity := none }

/-- Word characters of the regex `\b` boundary: `[A-Za-z0-9_]`. -/
def isWordChar (c : Char) : Bool :=
  c.isAlphanum || c == '_'

/-- Does the keyword occur at the head of `l` delimited by word
boundaries, `prev` being the character right before `l`? -/
def wordHereCI (kw : List Char) (prev : Option Char) (l : List Char) : Bool :=
  leadsWith kw l &&
  (match prev with | none => true | some p => !isWordChar p) &&
  (match l.drop kw.length with | [] => true | c :: _ => !isWordChar c)

/-- Scan for a word-boundary-delimited, case-insensitive keyword
occurrence (the `\bKEYWORD\b` regex with the `i` flag, on text already
lower-cased by the caller). -/
def hasWordCIAux (kw : List Char) : Option Char → List Char → Bool
  | prev, [] => wordHereCI kw prev []
  | prev, l@(c :: rest) => wordHereCI kw prev l || hasWordCIAux kw (some c) rest

/-- `\bKEYWORD\b` with `/i` on a string. -/
def hasWordCI (s : String) (kw : String) : Bool :=
  hasWordCIAux (kw.toList.map Char.toLower) none (s.toList.map Char.toLower)

/-- checkMaliciousContent: SQL-injection, XSS, traversal and null-byte
patterns, in source order (the quote class `('|")` is the test for an
apostrophe or a double quote). -/
def checkMaliciousContent (email : String) : EmailValidationResult :=
  let malicious :=
    hasWordCI email "UNION" || hasWordCI email "SELECT" || hasWordCI email "INSERT" ||
    hasWordCI email "DROP" || hasWordCI email "DELETE" || hasWordCI email "UPDATE" ||
    containsStr email "--" || containsStr email "/*" || containsStr email "*/" ||
    email.toList.contains (Char.ofNat 39) || email.toList.contains (Char.ofNat 34) ||
    containsStrCI email "<script" || containsStrCI email "javascript:" ||
    containsStrCI email "onerror=" || containsStrCI email "onload=" ||
    containsStrCI email "<iframe" || containsStrCI email "<object" ||
    containsStrCI email "<embed" ||
    containsStr email ".." || email.toList.contains (Char.ofNat 0)
  if malicious then
    { valid := false, reason := some "Email contains potentially malicious content",
      severity := some Severity.high }
  else
    { valid := true, reason := none, severity := none }

/-- The `/^(.)\1{4,}@/` pattern: a first character (not a newline)
repeated at least 5 times in total and followed by `@`.  When the
repeated character is `@` itself the literal `@` is one more repeat. -/
def repeatedHeadAt (l : List Char) : Bool :=
  match l with
  | [] => false
  | c :: rest =>
    if c == '\n' then false
    else
      let run := (rest.takeWhile (fun d => d == c)).length
      if c == '@' then run ≥ 5
      else run ≥ 4 && (rest.drop run).head? == some '@'

/-- The suspicious-pattern table of checkSuspiciousPatterns, in source
order: each entry is the regex test paired with its reason. -/
def suspiciousPatterns : List ((String → Bool) × String) :=
  [(fun e => strStartsCI e "test@", "Test email addresses are not allowed"),
   (fun e => strStartsCI e "admin@", "Admin email addresses are suspicious"),
   (fun e => strStartsCI e "no-reply@" || strStartsCI e "noreply@",
    "No-reply email addresses are not allowed"),
   (fun e => repeatedHeadAt e.toList, "Email contains suspicious repeated characters"),
   (fun e => strEndsCI e "@example.com" || strEndsCI e "@example.org" ||
             strEndsCI e "@example.net" || strEndsCI e "@example.edu",
    "Example domain emails are not allowed"),
   (fun e => strEndsCI e "@localhost", "Localhost emails are not allowed"),
   (fun e => strEnds e "@127.0.0.1", "IP-based email addresses are not allowed"),
   (fun e => strStartsCI e "webmaster@", "Webmaster email addresses are suspicious"),
   (fun e => strStartsCI e "postmaster@", "Postmaster email addresses are suspicious"),
   (fun e => strStartsCI e "abuse@", "Abuse email addresses are suspicious"),
   (fun e => strStartsCI e "spam@", "Spam email addresses are not allowed")]

/-- Return the reason of the first matching suspicious pattern. -/
def firstSuspicious (email : String) : List ((String → Bool) × String) → Option String
  | [] => none
  | (p, reason) :: rest =>
    if p email then some reason else firstSuspicious email rest

/-- checkSuspiciousPatterns: first matching table entry wins, severity
medium. -/
def checkSuspiciousPatterns (email : String) : EmailValidationResult :=
  match firstSuspicious email suspiciousPatterns with
  | some reason =>
    { valid := false, reason := some reason, severity := some Severity.medium }
  | none => { valid := true, reason := none, severity := none }

/-- Modelled from the spec: the repository's disposable-domain module
(`src/utils/disposableEmails`, whose source is not part of the provided
files — only its `isDisposableEmail` import site is) is "a disposable-
domain lookup against an external static list" of "temporary email
providers".  The list below is a representative static list of well-known
disposable providers; `isDisposableEmail` checks the email's domain
against it. -/
def disposableDomains : List String :=
  ["mailinator.com", "guerrillamail.com", "10minutemail.com", "tempmail.com",
   "throwawaymail.com", "yopmail.com", "trashmail.com", "getnada.com"]

/-- Modelled from the spec: membership of the email's domain (the part
after the first `@`) in the static disposable-domain list. -/
def isDisposableEmail (email : String) : Bool :=
  let domain := String.mk ((email.toList.dropWhile (fun c => c != '@')).drop 1)
  disposableDomains.contains domain

/-- checkDisposableEmail: medium-severity rejection of disposable
domains. -/
def checkDisposableEmail (email : String) : EmailValidationResult :=
  if isDisposableEmail email then
    { valid := false, reason := some "Temporary/disposable email addresses are not allowed",
      severity := some Severity.medium }
  else
    { valid := true, reason := none, severity := none }

/-- The commonTypos table: typo domain to suggested domain. -/
def commonTypos : List (String × String) :=
  [("gmial.com", "gmail.com"), ("gmai.com", "gmail.com"), ("gmaiil.com", "gmail.com"),
   ("gamil.com", "gmail.com"), ("gmil.com", "gmail.com"), ("yahooo.com", "yahoo.com"),
   ("yaho.com", "yahoo.com"), ("yahho.com", "yahoo.com"), ("hotmial.com", "hotmail.com"),
   ("hotmai.com", "hotmail.com"), ("outloo.com", "outlook.com"), ("outlok.com", "outlook.com")]

/-- checkCommonTypos: looks up `email.toLowerCase().split('@')[1]` (the
part between the first and second `@`) in the typo table; a hit is
rejected with the suggestion as reason, severity low. -/
def checkCommonTypos (email : String) : EmailValidationResult :=
  match (splitOnChar '@' (lowerStr email).toList).get? 1 with
  | none => { valid := true, reason := none, severity := none }
  | some domainChars =>
    let domain := String.mk domainChars
    match (commonTypos.find? (fun kv => kv.1 == domain)).map Prod.snd with
    | some suggestion =>
      { valid := false,
        reason := some ("Did you mean " ++ suggestion ++ "?"),
        severity := some Severity.low }
    | none => { valid := true, reason := none, severity := none }

/-- normalizeEmail: `email.trim().toLowerCase()`. -/
def normalizeEmail (email : String) : String :=
  lowerStr (jsTrim email)

/-- Return the first invalid result of the check list, or the all-clear
result (the `for`-loop tail of validateEmail). -/
def firstInvalid : List EmailValidationResult → EmailValidationResult
  | [] => { valid := true, reason := none, severity := none }
  | r :: rest => if r.valid then firstInvalid rest else r

/-- The ordered check list validateEmail builds on the normalized email. -/
def validationChecks (normalizedEmail : String) : List EmailValidationResult :=
  [validateEmailFormat normalizedEmail,
   checkMaliciousContent normalizedEmail,
   checkSuspiciousPatterns normalizedEmail,
   checkDisposableEmail normalizedEmail,
   checkCommonTypos normalizedEmail]

/-- validateEmail: normalize, run the five checks in order, return the
first failure (or valid). -/
def validateEmail (email : String) : EmailValidationResult :=
  firstInvalid (validationChecks (normalizeEmail email))

/-! ## Subscription manager (src/lib/emailSubscription.ts)

The `subscriptions` collection is modelled as a list of subscription
records; `setDoc` on a fresh key appends, `updateDoc` on a queried
document replaces the first matching record.  The externally supplied
effects are parameters: `hash` stands for `sha256Hash`, `freshToken` for
`generateUUID()`, and `now` for `Timestamp.now()`. -/

/-- Subscription status: 'subscribed' | 'unsubscribed'. -/
inductive SubscriptionStatus
  | subscribed
  | unsubscribed
  deriving DecidableEq, Repr

/-- The metadata sub-object captured at the most recent subscribe. -/
structure SubMetadata where
  ipHash : String
  userAgent : String
  country : Option String
  referrer : Option String
  locale : String
  deriving DecidableEq, Repr

/-- The persisted subscription record. -/
structure Subscription where
  email : String
  emailHash : String
  status : SubscriptionStatus
  subscribedAt : Int
  lastSubscribedAt : Int
  unsubscribedAt : Option Int
  unsubscribeToken : String
  source : String
  subscriptionCount : Int
  metadata : SubMetadata
  notes : Option String
  flaggedAsSpam : Bool
  createdAt : Int
  updatedAt : Int
  deriving DecidableEq, Repr

/-- maskEmail of src/lib/crypto.ts: first local character + `***@` +
second split part; an email without `@` is returned unchanged (both
length branches of the source produce the same string, and an empty local
part renders JS `undefined`). -/
def maskEmail (email : String) : String :=
  match splitOnChar '@' email.toList with
  | [_] => email
  | localPart :: domain :: _ =>
    (match localPart.head? with
     | some c => String.mk [c]
     | none => "undefined") ++ "***@" ++ String.mk domain
  | [] => email

/-- Return record of subscribeEmail (the `subscription` field of the
source is the partial record with masked email, status and subscribedAt). -/
structure SubscribeOutcome where
  success : Bool
  alreadySubscribed : Bool
  subEmail : String
  subStatus : SubscriptionStatus
  subSubscribedAt : Int
  deriving DecidableEq, Repr

/-- subscribeEmail: no-op when already subscribed; re-subscribe updates
status/metadata/counters in place; otherwise creates a fresh record with
a new token and count 1. -/
def subscribeEmail (hash : String → String) (freshToken : String) (now : Int)
    (store : List Subscription) (email : String) (metadata : SubMetadata)
    (source : String) : SubscribeOutcome × List Subscription :=
  let emailHash := hash (lowerStr email)
  match store.find? (fun r => r.emailHash == emailHash) with
  | some existingData =>
    if existingData.status = SubscriptionStatus.subscribed then
      ({ success := true, alreadySubscribed := true, subEmail := maskEmail email,
         subStatus := SubscriptionStatus.subscribed,
         subSubscribedAt := existingData.subscribedAt }, store)
    else
      let newStore := updateFirst (fun r => r.emailHash == emailHash)
        (fun r => { r with
          status := SubscriptionStatus.subscribed,
          lastSubscribedAt := now,
          unsubscribedAt := none,
          subscriptionCount := r.subscriptionCount + 1,
          updatedAt := now,
          metadata := metadata }) store
      ({ success := true, alreadySubscribed := false, subEmail := maskEmail email,
         subStatus := SubscriptionStatus.subscribed, subSubscribedAt := now }, newStore)
  | none =>
    let newSubscription : Subscription :=
      { email := email, emailHash := emailHash,
        status := SubscriptionStatus.subscribed,
        subscribedAt := now, lastSubscribedAt := now, unsubscribedAt := none,
        unsubscribeToken := freshToken, source := source, subscriptionCount := 1,
        metadata := metadata, notes := none, flaggedAsSpam := false,
        createdAt := now, updatedAt := now }
    ({ success := true, alreadySubscribed := false, subEmail := maskEmail email,
       subStatus := SubscriptionStatus.subscribed, subSubscribedAt := now },
     store ++ [newSubscription])

/-- Return record of unsubscribeEmail. -/
structure UnsubscribeOutcome where
  success : Bool
  email : String
  notFound : Bool
  alreadyUnsubscribed : Bool
  deriving DecidableEq, Repr

/-- unsubscribeEmail: query the collection for the record with this
token (the first match plays `querySnapshot.docs[0]`); report notFound,
alreadyUnsubscribed, or flip the status in place. -/
def unsubscribeEmail (store : List Subscription) (token : String) (now : Int) :
    UnsubscribeOutcome × List Subscription :=
  match store.find? (fun r => r.unsubscribeToken == token) with
  | none =>
    ({ success := false, email := "", notFound := true, alreadyUnsubscribed := false },
     store)
  | some subscription =>
    if subscription.status = SubscriptionStatus.unsubscribed then
      ({ success := true, email := maskEmail subscription.email, notFound := false,
         alreadyUnsubscribed := true }, store)
    else
      ({ success := true, email := maskEmail subscription.email, notFound := false,
         alreadyUnsubscribed := false },
       updateFirst (fun r => r.unsubscribeToken == token)
         (fun r => { r with
           status := SubscriptionStatus.unsubscribed,
           unsubscribedAt := some now,
           updatedAt := now }) store)

/-! ## Subscribe endpoint responses (src/app/api/subscribe/route.ts)

Only the two 200-responses the honeypot-deception property compares are
modelled: the fake success returned when the honeypot is filled, and the
genuine success returned after a new subscription is written. -/

/-- The `data` object of a SubscribeResponse. -/
structure SubscribeResponseData where
  status : SubscriptionStatus
  subscribedAt : String
  deriving DecidableEq, Repr

/-- The `error` object of a SubscribeResponse. -/
structure SubscribeApiError where
  code : String
  message : String
  retryAfter : Option Int
  deriving DecidableEq, Repr

/-- The JSON body of a SubscribeResponse. -/
structure SubscribeResponseBody where
  success : Bool
  message : String
  data : Option SubscribeResponseData
  error : Option SubscribeApiError
  deriving DecidableEq, Repr

/-- An HTTP response as status code plus JSON body. -/
structure HttpJsonResponse where
  status : Nat
  body : SubscribeResponseBody
  deriving DecidableEq, Repr

/-- The fake success returned on the honeypot branch
(`NextResponse.json` with default status 200 and no `data` field). -/
def honeypotFakeSuccessResponse : HttpJsonResponse :=
  { status := 200,
    body := { success := true,
              message := "Thanks for subscribing! We\x27ll keep you updated.",
              data := none, error := none } }

/-- The genuine success returned after a new subscription is written,
parametrized by the ISO string of the subscription time. -/
def genuineSuccessResponse (subscribedAt : String) : HttpJsonResponse :=
  { status := 200,
    body := { success := true,
              message := "Thanks for subscribing! We\x27ll keep you updated.",
              data := some { status := SubscriptionStatus.subscribed,
                             subscribedAt := subscribedAt },
              error := none } }

/-! ## Concrete fixtures used by witness theorems -/

/-- A concrete bot-like request: curl user agent, public IP, blank
honeypot, no client timestamp. -/
def wCurlInput : SpamInput :=
  { email := "a@b.com", honeypot := none, timestamp := none,
    userAgent := "curl/7.68.0", ip := "9.9.9.9" }

/-- A concrete subscribed record used by the subscription witnesses. -/
def wSubMeta : SubMetadata :=
  { ipHash := "iphash1", userAgent := "Mozilla/5.0", country := none,
    referrer := none, locale := "en" }

/-- A concrete subscription record in `subscribed` status. -/
def wSub : Subscription :=
  { email := "ab@cd.com", emailHash := "ab@cd.com",
    status := SubscriptionStatus.subscribed,
    subscribedAt := 1, lastSubscribedAt := 1, unsubscribedAt := none,
    unsubscribeToken := "tok0", source := "homepage", subscriptionCount := 1,
    metadata := wSubMeta, notes := none, flaggedAsSpam := false,
    createdAt := 1, updatedAt := 1 }

/-! ## Helper lemmas -/

/-- Flags visible in the outcome of the aggregation loop: the early
return's flags if one fired, the final accumulator otherwise. -/
def loopFlags : Option SpamCheckResult × AggState → List String
  | (some r, _) => r.flags
  | (none, st) => st.allFlags

lemma dropWhile_any_not (p : Char → Bool) (l : List Char)
    (h : l.any (fun c => !p c) = true) :
    (l.dropWhile p).any (fun c => !p c) = true := by
  induction l with
  | nil => simp at h
  | cons c cs ih =>
    by_cases hc : p c
    · have h' : cs.any (fun c => !p c) = true := by
        simp [hc] at h
        simpa using h
      simpa [List.dropWhile, hc] using ih h'
    · simp [List.dropWhile, hc]

lemma trimChars_ne_nil (l : List Char)
    (h : l.any (fun c => !jsWhitespace c) = true) :
    trimChars l ≠ [] := by
  unfold trimChars
  have h1 := dropWhile_any_not jsWhitespace l h
  have h2 : ((l.dropWhile jsWhitespace).reverse).any (fun c => !jsWhitespace c) = true := by
    simpa using h1
  have h3 := dropWhile_any_not jsWhitespace _ h2
  intro hnil
  rw [List.reverse_eq_nil_iff] at hnil
  rw [hnil] at h3
  simp at h3

lemma checkHoneypot_filled (v : String)
    (h : v.toList.any (fun c => !jsWhitespace c) = true) :
    checkHoneypot (some v) =
      { isSpam := true, reason := some "Honeypot field was filled",
        confidence := 1, flags := ["honeypot-filled"] } := by
  have hne : v ≠ "" := by
    intro hv
    subst hv
    simp at h
  have htrim : jsTrim v ≠ "" := by
    intro hv
    have hdat : trimChars v.toList = [] := congrArg String.data hv
    exact trimChars_ne_nil _ h hdat
  simp [checkHoneypot, hne, htrim]

/-! ## C1 -/

/-- C1: for every input record whose honeypot field contains a
non-whitespace character, `detectSpam` returns the definitive honeypot
verdict - `isSpam = true` with confidence 1.0 - regardless of the email,
timestamp, user agent and IP fields. -/
theorem honeypot_nonblank_forces_definitive_spam
    (email userAgent ip : String) (timestamp : Option Int) (now : Int) (hp : String)
    (h : hp.toList.any (fun c => !jsWhitespace c) = true) :
    detectSpam now { email := email, honeypot := some hp, timestamp := timestamp,
                     userAgent := userAgent, ip := ip } =
      { isSpam := true, reason := some "Honeypot field was filled",
        confidence := 1, flags := ["honeypot-filled"] } := by
  simp +decide [detectSpam, subChecks, detectLoop, stepAgg, isDefinitive,
    checkHoneypot_filled hp h]

/-- Witness for C1 at the concrete honeypot value "x". -/
theorem honeypot_nonblank_forces_definitive_spam_witness :
    ("x".toList.any (fun c => !jsWhitespace c) = true) ∧
    detectSpam 0 { email := "a@b.com", honeypot := some "x", timestamp := none,
                   userAgent := "Mozilla", ip := "1.2.3.4" } =
      { isSpam := true, reason := some "Honeypot field was filled",
        confidence := 1, flags := ["honeypot-filled"] } :=
  ⟨by decide,
   honeypot_nonblank_forces_definitive_spam "a@b.com" "Mozilla" "1.2.3.4" none 0 "x" (by decide)⟩

/-! ## C5 -/

lemma mem_loopFlags_of_mem_acc (l : List SpamCheckResult) (st : AggState) (f : String)
    (hf : f ∈ st.allFlags) : f ∈ loopFlags (detectLoop l st) := by
  induction l generalizing st with
  | nil => simpa [detectLoop, loopFlags] using hf
  | cons r rest ih =>
    by_cases hd : isDefinitive r
    · simp [detectLoop, hd, loopFlags, stepAgg]
      exact Or.inl hf
    · simp only [detectLoop, hd, if_false, Bool.false_eq_true, if_neg]
      exact ih _ (by simp [stepAgg]; exact Or.inl hf)

lemma mem_loopFlags_of_no_earlier_definitive (l : List SpamCheckResult) (st : AggState)
    (i : Nat) (hi : i < l.length)
    (hnd : ∀ j (hj : j < l.length), j < i → isDefinitive (l.get ⟨j, hj⟩) = false)
    (f : String) (hf : f ∈ (l.get ⟨i, hi⟩).flags) :
    f ∈ loopFlags (detectLoop l st) := by
  induction l generalizing st i with
  | nil => simp at hi
  | cons r rest ih =>
    cases i with
    | zero =>
      simp only [List.get] at hf
      by_cases hd : isDefinitive r
      · simp [detectLoop, hd, loopFlags, stepAgg]
        exact Or.inr hf
      · simp only [detectLoop, hd, Bool.false_eq_true, if_neg, if_false]
        exact mem_loopFlags_of_mem_acc _ _ _ (by simp [stepAgg]; exact Or.inr hf)
    | succ k =>
      have hr : isDefinitive r = false := by
        have := hnd 0 (by simp) (Nat.succ_pos k)
        simpa using this
      simp only [detectLoop, hr, Bool.false_eq_true, if_neg, if_false]
      refine ih _ k (Nat.lt_of_succ_lt_succ hi) ?_ (by simpa using hf)
      intro j hj hjk
      have := hnd (j + 1) (by simpa using Nat.succ_lt_succ hj) (Nat.succ_lt_succ hjk)
      simpa using this

lemma detectSpam_flags_eq (now : Int) (d : SpamInput) :
    (detectSpam now d).flags =
      loopFlags (detectLoop (subChecks now d)
        { allFlags := [], maxConfidence := 0, spamReason := "" }) := by
  simp only [detectSpam]
  rcases hl : detectLoop (subChecks now d)
      { allFlags := [], maxConfidence := 0, spamReason := "" } with ⟨o, st⟩
  cases o with
  | some r => simp [loopFlags]
  | none =>
    simp only [loopFlags]
    split <;> rfl

/-- C5: every flag raised by a sub-check that is not skipped by the ≥0.9
short-circuit (i.e. no strictly earlier sub-check was definitive spam)
appears in the flags list of `detectSpam`'s final result, whatever the
overall verdict. -/
theorem detectSpam_accumulates_subcheck_flags (now : Int) (d : SpamInput)
    (i : Fin (subChecks now d).length)
    (hnd : ∀ j : Fin (subChecks now d).length, (j : Nat) < (i : Nat) →
      isDefinitive ((subChecks now d).get j) = false) :
    ∀ f ∈ ((subChecks now d).get i).flags, f ∈ (detectSpam now d).flags := by
  intro f hf
  rw [detectSpam_flags_eq]
  exact mem_loopFlags_of_no_earlier_definitive _ _ i.1 i.2
    (fun j hj hji => hnd ⟨j, hj⟩ hji) f hf

/-- Witness for C5: the user-agent sub-check (index 2) has no earlier
definitive check on this input, and its "bot-user-agent" flag reaches the
final result. -/
theorem detectSpam_accumulates_subcheck_flags_witness :
    (∀ j : Fin (subChecks 0 wCurlInput).length, (j : Nat) < 2 →
       isDefinitive ((subChecks 0 wCurlInput).get j) = false) ∧
    "bot-user-agent" ∈ (detectSpam 0 wCurlInput).flags :=
  ⟨by decide,
   detectSpam_accumulates_subcheck_flags 0 wCurlInput
     ⟨2, by decide⟩ (by decide) "bot-user-agent" (by decide)⟩

/-! ## C6 -/

/-- Counterexample to C6 as stated: on "aaaaaa@x.com" the email-shape
sub-check raises no flag at all - 'a' is a vowel, so the repeated letter
is not a consonant streak - and reports confidence 0, not ≥ 0.7. -/
theorem consonant_streak_counterexample :
    (checkEmailPatterns "aaaaaa@x.com").flags = [] ∧
    ¬ ("random-string" ∈ (checkEmailPatterns "aaaaaa@x.com").flags) ∧
    (checkEmailPatterns "aaaaaa@x.com").confidence = 0 ∧
    ¬ ((checkEmailPatterns "aaaaaa@x.com").confidence ≥ mkRat 7 10) := by
  decide

/-- C6 amended: on email "aaaaaa@x.com" with user agent "curl/7.68.0"
(blank honeypot, no timestamp), the email-shape sub-check raises no flag
and reports confidence 0, the user-agent sub-check reports confidence 0.9,
and `detectSpam` returns isSpam = true via the ≥0.9 short-circuit on the
user-agent check, for every server time and IP. -/
theorem curl_scenario_short_circuits_on_user_agent (now : Int) (ip : String) :
    checkEmailPatterns "aaaaaa@x.com" =
      { isSpam := false, reason := none, confidence := 0, flags := [] } ∧
    checkUserAgent "curl/7.68.0" =
      { isSpam := true, reason := some "Suspicious User-Agent detected",
        confidence := mkRat 9 10, flags := ["bot-user-agent", "short-user-agent"] } ∧
    detectSpam now { email := "aaaaaa@x.com", honeypot := none, timestamp := none,
                     userAgent := "curl/7.68.0", ip := ip } =
      { isSpam := true, reason := some "Suspicious User-Agent detected",
        confidence := mkRat 9 10, flags := ["bot-user-agent", "short-user-agent"] } := by
  have hua : checkUserAgent "curl/7.68.0" =
      { isSpam := true, reason := some "Suspicious User-Agent detected",
        confidence := mkRat 9 10, flags := ["bot-user-agent", "short-user-agent"] } := by
    decide
  refine ⟨by decide, hua, ?_⟩
  simp +decide [detectSpam, subChecks, detectLoop, stepAgg, isDefinitive,
    checkHoneypot, checkSubmissionTiming, hua]

/-! ## C7 -/

/-- C7: `validateEmail` operates on the normalized (trimmed, lower-cased)
email and returns the first failing result of the ordered check list
format, malicious-content, suspicious-pattern, disposable-domain,
typo-suggestion; it rejects "test@example.com" with the suspicious-pattern
reason and severity medium, and accepts "jane.doe@outlook.com". -/
theorem validateEmail_first_failure_and_examples :
    (∀ email : String,
       validateEmail email = firstInvalid (validationChecks (normalizeEmail email))) ∧
    validateEmail "test@example.com" =
      { valid := false, reason := some "Test email addresses are not allowed",
        severity := some Severity.medium } ∧
    validateEmail "jane.doe@outlook.com" =
      { valid := true, reason := none, severity := none } :=
  ⟨fun _ => rfl, by decide, by decide⟩

/-! ## Rate limiter step lemmas -/

lemma checkIP_first (now : Int) :
    checkIPRateLimit none now =
      ({ allowed := true, retryAfter := none, reason := none, remaining := some 2 },
       some ⟨1, now, now, none, 1⟩) := by
  simp [checkIPRateLimit, RATE_LIMIT_CONFIG]

lemma checkIP_allowed_step (c w la ta now : Int)
    (hw : ¬ w < now - 3600000) (hc : c + 1 ≤ 3) :
    checkIPRateLimit (some ⟨c, w, la, none, ta⟩) now =
      ({ allowed := true, retryAfter := none, reason := none,
         remaining := some (3 - (c + 1)) },
       some ⟨c + 1, w, now, none, ta + 1⟩) := by
  have h1 : ¬ (c + 1 > 3) := by omega
  have h2 : ¬ (c + 1 > 10) := by omega
  simp [checkIPRateLimit, jsBlocked, hw, h1, h2, RATE_LIMIT_CONFIG]

lemma checkIP_block_step (c w la ta now : Int)
    (hw : ¬ w < now - 3600000) (hc : c + 1 > 3) :
    checkIPRateLimit (some ⟨c, w, la, none, ta⟩) now =
      ({ allowed := false, retryAfter := some 3600,
         reason := some "Too many attempts from your IP. Limit: 3 per hour",
         remaining := none },
       some ⟨c + 1, w, now, some (now + 3600000), ta + 1⟩) := by
  simp [checkIPRateLimit, jsBlocked, hw, hc, RATE_LIMIT_CONFIG]

lemma checkIP_unblock_reset_step (c w la b ta now : Int)
    (hb : ¬ b > now) (hw : w < now - 3600000) :
    checkIPRateLimit (some ⟨c, w, la, some b, ta⟩) now =
      ({ allowed := true, retryAfter := none, reason := none, remaining := some 2 },
       some ⟨1, now, now, none, ta + 1⟩) := by
  simp [checkIPRateLimit, jsBlocked, hb, hw, RATE_LIMIT_CONFIG]

/-! ## C2 -/

/-- C2: starting from no counter, 4 = hourly+1 attempts from one IP inside
one window leave the first three allowed and reject the 4th with
`blockedUntil = now + blockDuration` (in ms) and a 3600-second retry hint;
any 5th attempt strictly after `blockedUntil` is allowed again and resets
the stored count to 1. -/
theorem ip_rate_limit_block_and_recovery
    (t1 t2 t3 t4 t5 : Int) (r1 r2 r3 r4 r5 : RateLimitResult)
    (s1 s2 s3 s4 s5 : Option RateLimitData)
    (h12 : t1 ≤ t2) (h23 : t2 ≤ t3) (h34 : t3 ≤ t4)
    (hwin : t4 ≤ t1 + 3600000) (h5 : t4 + 3600000 < t5)
    (e1 : checkIPRateLimit none t1 = (r1, s1))
    (e2 : checkIPRateLimit s1 t2 = (r2, s2))
    (e3 : checkIPRateLimit s2 t3 = (r3, s3))
    (e4 : checkIPRateLimit s3 t4 = (r4, s4))
    (e5 : checkIPRateLimit s4 t5 = (r5, s5)) :
    r1.allowed = true ∧ r2.allowed = true ∧ r3.allowed = true ∧
    r4.allowed = false ∧ r4.retryAfter = some RATE_LIMIT_CONFIG.blockDuration ∧
    s4.map RateLimitData.blockedUntil = some (some (t4 + RATE_LIMIT_CONFIG.blockDuration * 1000)) ∧
    r5.allowed = true ∧ s5.map RateLimitData.count = some 1 := by
  rw [checkIP_first t1] at e1
  injection e1 with hr1 hs1
  rw [← hs1] at e2
  rw [checkIP_allowed_step 1 t1 t1 1 t2 (by omega) (by omega)] at e2
  norm_num at e2
  obtain ⟨hr2, hs2⟩ := e2
  rw [← hs2] at e3
  rw [checkIP_allowed_step 2 t1 t2 2 t3 (by omega) (by omega)] at e3
  norm_num at e3
  obtain ⟨hr3, hs3⟩ := e3
  rw [← hs3] at e4
  rw [checkIP_block_step 3 t1 t3 3 t4 (by omega) (by omega)] at e4
  norm_num at e4
  obtain ⟨hr4, hs4⟩ := e4
  rw [← hs4] at e5
  rw [checkIP_unblock_reset_step 4 t1 t4 (t4 + 3600000) 4 t5 (by omega) (by omega)] at e5
  norm_num at e5
  obtain ⟨hr5, hs5⟩ := e5
  refine ⟨by rw [← hr1], by rw [← hr2], by rw [← hr3], by rw [← hr4],
          by rw [← hr4]; simp [RATE_LIMIT_CONFIG],
          by rw [← hs4]; simp [RATE_LIMIT_CONFIG],
          by rw [← hr5], by rw [← hs5]; rfl⟩

/-- Witness for C2 with all four attempts at time 0 and the recovery
attempt at time 3600001. -/
theorem ip_rate_limit_block_and_recovery_witness :
    ((checkIPRateLimit (checkIPRateLimit (checkIPRateLimit
        (checkIPRateLimit none 0).2 0).2 0).2 0).1).allowed = false ∧
    ((checkIPRateLimit (checkIPRateLimit (checkIPRateLimit (checkIPRateLimit
        (checkIPRateLimit none 0).2 0).2 0).2 0).2 3600001).1).allowed = true ∧
    ((checkIPRateLimit (checkIPRateLimit (checkIPRateLimit (checkIPRateLimit
        (checkIPRateLimit none 0).2 0).2 0).2 0).2 3600001).2).map RateLimitData.count =
      some 1 := by
  have h := ip_rate_limit_block_and_recovery 0 0 0 0 3600001 _ _ _ _ _ _ _ _ _ _
    (by decide) (by decide) (by decide) (by decide) (by decide)
    rfl rfl rfl rfl rfl
  exact ⟨h.2.2.2.1, h.2.2.2.2.2.2.1, h.2.2.2.2.2.2.2⟩

/-! ## C3 -/

lemma checkEmail_block_step (c w la ta now : Int)
    (hw : ¬ w < now - 3600000) (hc : c + 1 > 2) :
    checkEmailRateLimit (some ⟨c, w, la, none, ta⟩) now =
      ({ allowed := false, retryAfter := some 7200,
         reason := some "This email was submitted too many times. Limit: 2 per hour",
         remaining := none },
       some ⟨c + 1, w, now, some (now + 7200000), ta + 1⟩) := by
  simp [checkEmailRateLimit, jsBlocked, hw, hc, RATE_LIMIT_CONFIG]

/-- Counterexample to C3 as stated: with a counter at 5 attempts in the
current window, the 6th attempt exceeds the per-email daily limit of 5,
yet the persisted block is `now + 2·blockDuration·1000` = 7200000 ms (the
2× email multiplier), not the claimed 3× daily multiplier 10800000 ms. -/
theorem email_daily_multiplier_counterexample :
    ((checkEmailRateLimit (some ⟨5, 0, 0, none, 5⟩) 0).1).allowed = false ∧
    ((checkEmailRateLimit (some ⟨5, 0, 0, none, 5⟩) 0).2).map RateLimitData.blockedUntil =
      some (some 7200000) ∧
    ¬ (((checkEmailRateLimit (some ⟨5, 0, 0, none, 5⟩) 0).2).map RateLimitData.blockedUntil =
      some (some (3 * RATE_LIMIT_CONFIG.blockDuration * 1000))) := by
  decide

/-- C3 amended: when the attempts in the current window exceed the daily
limit of 5 for an email key (not currently blocked), the attempt is
rejected - already by the hourly limit of 2 - and the persisted block
carries the fixed 2× email multiplier (`blockDuration * 2`); the email
scope has no daily branch and never applies a 3× multiplier. -/
theorem email_over_daily_rejected_with_two_hour_block (c w la ta now : Int)
    (hw : ¬ w < now - 3600000) (hd : c + 1 > 5) :
    ((checkEmailRateLimit (some ⟨c, w, la, none, ta⟩) now).1).allowed = false ∧
    ((checkEmailRateLimit (some ⟨c, w, la, none, ta⟩) now).1).retryAfter =
      some (RATE_LIMIT_CONFIG.blockDuration * 2) ∧
    (checkEmailRateLimit (some ⟨c, w, la, none, ta⟩) now).2 =
      some ⟨c + 1, w, now, some (now + RATE_LIMIT_CONFIG.blockDuration * 2 * 1000), ta + 1⟩ := by
  rw [checkEmail_block_step c w la ta now hw (by omega)]
  refine ⟨rfl, by simp [RATE_LIMIT_CONFIG], by simp [RATE_LIMIT_CONFIG]⟩

/-- Witness for the amended C3 at a concrete over-daily counter. -/
theorem email_over_daily_rejected_with_two_hour_block_witness :
    (¬ (0 : Int) < 0 - 3600000) ∧ ((5 : Int) + 1 > 5) ∧
    ((checkEmailRateLimit (some ⟨5, 0, 0, none, 5⟩) 0).1).allowed = false ∧
    ((checkEmailRateLimit (some ⟨5, 0, 0, none, 5⟩) 0).1).retryAfter =
      some (RATE_LIMIT_CONFIG.blockDuration * 2) ∧
    (checkEmailRateLimit (some ⟨5, 0, 0, none, 5⟩) 0).2 =
      some ⟨6, 0, 0, some 7200000, 6⟩ := by
  have h := email_over_daily_rejected_with_two_hour_block 5 0 0 5 0 (by decide) (by decide)
  exact ⟨by decide, by decide, h.1, h.2.1, by rw [h.2.2]; decide⟩

/-! ## C10 -/

/-- C10: when the global hourly limit is exceeded in the current window,
`checkGlobalRateLimit` rejects without persisting anything - the stored
count, lastAttempt and totalAttempts are exactly the input ones - whereas
the per-IP check under the analogous hourly breach rejects AND persists a
blocked counter. -/
theorem global_reject_leaves_store_unchanged (c w la ta now : Int) (bu : Option Int)
    (hw : ¬ w < now - 3600000) (hc : c + 1 > 500)
    (cip wip laip taip : Int)
    (hwip : ¬ wip < now - 3600000) (hcip : cip + 1 > 3) :
    (((checkGlobalRateLimit (some ⟨c, w, la, bu, ta⟩) now).1).allowed = false ∧
     (checkGlobalRateLimit (some ⟨c, w, la, bu, ta⟩) now).2 = some ⟨c, w, la, bu, ta⟩) ∧
    (((checkIPRateLimit (some ⟨cip, wip, laip, none, taip⟩) now).1).allowed = false ∧
     (checkIPRateLimit (some ⟨cip, wip, laip, none, taip⟩) now).2 =
       some ⟨cip + 1, wip, now, some (now + 3600000), taip + 1⟩ ∧
     (checkIPRateLimit (some ⟨cip, wip, laip, none, taip⟩) now).2 ≠
       some ⟨cip, wip, laip, none, taip⟩) := by
  constructor
  · constructor
    · simp [checkGlobalRateLimit, hw, hc, RATE_LIMIT_CONFIG]
    · simp [checkGlobalRateLimit, hw, hc, RATE_LIMIT_CONFIG]
  · rw [checkIP_block_step cip wip laip taip now hwip hcip]
    refine ⟨rfl, rfl, ?_⟩
    simp

/-- Witness for C10 with the global counter at 500 and the IP counter at
3 within the current window. -/
theorem global_reject_leaves_store_unchanged_witness :
    ((checkGlobalRateLimit (some ⟨500, 0, 0, none, 500⟩) 0).2 = some ⟨500, 0, 0, none, 500⟩) ∧
    (((checkGlobalRateLimit (some ⟨500, 0, 0, none, 500⟩) 0).1).allowed = false) ∧
    ((checkIPRateLimit (some ⟨3, 0, 0, none, 3⟩) 0).2 = some ⟨4, 0, 0, some 3600000, 4⟩) := by
  have h := global_reject_leaves_store_unchanged 500 0 0 500 0 none
    (by decide) (by decide) 3 0 0 3 (by decide) (by decide)
  exact ⟨h.1.2, h.1.1, by rw [h.2.2.1]; decide⟩

/-! ## C4 -/

/-- Counterexample to C4 as stated: the honeypot branch's response and a
genuine success response share status 200 and the success message, but
their bodies do not have the same shape - the honeypot body omits the
`data` object genuine successes carry, so the two are distinguishable. -/
theorem honeypot_response_distinguishable_counterexample :
    honeypotFakeSuccessResponse.status =
      (genuineSuccessResponse "2026-01-01T00:00:00.000Z").status ∧
    honeypotFakeSuccessResponse.body.message =
      (genuineSuccessResponse "2026-01-01T00:00:00.000Z").body.message ∧
    honeypotFakeSuccessResponse.body ≠
      (genuineSuccessResponse "2026-01-01T00:00:00.000Z").body ∧
    honeypotFakeSuccessResponse.body.data = none ∧
    (genuineSuccessResponse "2026-01-01T00:00:00.000Z").body.data ≠ none := by
  decide

/-- C4 amended: for every subscription timestamp string, the honeypot
response matches a genuine success response in HTTP status (200), success
flag, success message, and (absent) error object - but it omits the `data`
object (status and subscribedAt) that a genuine success includes, so the
bodies differ exactly in the presence of `data`. -/
theorem honeypot_response_same_status_and_message (t : String) :
    honeypotFakeSuccessResponse.status = (genuineSuccessResponse t).status ∧
    honeypotFakeSuccessResponse.body.success = (genuineSuccessResponse t).body.success ∧
    honeypotFakeSuccessResponse.body.message = (genuineSuccessResponse t).body.message ∧
    honeypotFakeSuccessResponse.body.error = (genuineSuccessResponse t).body.error ∧
    honeypotFakeSuccessResponse.body.data = none ∧
    (genuineSuccessResponse t).body.data =
      some { status := SubscriptionStatus.subscribed, subscribedAt := t } :=
  ⟨rfl, rfl, rfl, rfl, rfl, rfl⟩

/-! ## C8 -/

/-- C8: for every subscribed record, the full
subscribe → unsubscribe(token) → subscribe cycle on its one-record store
yields a store whose single record has `subscriptionCount` exactly one
higher and the very same `unsubscribeToken` as before the cycle. -/
theorem resubscribe_cycle_increments_count_preserves_token
    (hash : String → String) (tok1 tok3 : String) (now1 now2 now3 : Int)
    (email src1 src3 : String) (md1 md3 : SubMetadata) (r : Subscription)
    (hstat : r.status = SubscriptionStatus.subscribed)
    (hkey : hash (lowerStr email) = r.emailHash) :
    ((subscribeEmail hash tok3 now3
        ((unsubscribeEmail
            ((subscribeEmail hash tok1 now1 [r] email md1 src1).2)
            r.unsubscribeToken now2).2)
        email md3 src3).2).map
      (fun x => (x.subscriptionCount, x.unsubscribeToken)) =
      [(r.subscriptionCount + 1, r.unsubscribeToken)] := by
  simp [subscribeEmail, unsubscribeEmail, updateFirst, hkey, hstat, List.find?]

/-- Witness for C8 on the concrete record `wSub` (count 1, token "tok0"):
after the cycle the store holds count 2 and the same token. -/
theorem resubscribe_cycle_increments_count_preserves_token_witness :
    (wSub.status = SubscriptionStatus.subscribed) ∧
    ((fun s => s) (lowerStr "ab@cd.com") = wSub.emailHash) ∧
    ((subscribeEmail (fun s => s) "tok3" 30
        ((unsubscribeEmail
            ((subscribeEmail (fun s => s) "tok1" 10 [wSub] "ab@cd.com" wSubMeta "homepage").2)
            wSub.unsubscribeToken 20).2)
        "ab@cd.com" wSubMeta "homepage").2).map
      (fun x => (x.subscriptionCount, x.unsubscribeToken)) = [(2, "tok0")] := by
  refine ⟨by decide, by decide, ?_⟩
  have h := resubscribe_cycle_increments_count_preserves_token
    (fun s => s) "tok1" "tok3" 10 20 30 "ab@cd.com" "homepage" "homepage"
    wSubMeta wSubMeta wSub (by decide) (by decide)
  rw [h]
  decide

/-! ## C9 -/

lemma find?_updateFirst (p : α → Bool) (f : α → α) (l : List α)
    (hpf : ∀ a, p a = true → p (f a) = true) :
    (updateFirst p f l).find? p = (l.find? p).map f := by
  induction l with
  | nil => rfl
  | cons x xs ih =>
    by_cases hx : p x = true
    · simp [updateFirst, hx, hpf x hx, List.find?_cons]
    · simp only [updateFirst, hx, Bool.false_eq_true, if_neg, if_false]
      rw [List.find?_cons_of_neg _ (by simpa using hx),
          List.find?_cons_of_neg _ (by simpa using hx)]
      exact ih

/-- C9: unsubscribing with a token matching no record reports
`notFound = true` and writes nothing; after a successful unsubscribe, a
second call with the same token reports `alreadyUnsubscribed = true`,
returns the same masked email, and leaves the store untouched. -/
theorem unsubscribe_unknown_token_and_double_unsubscribe
    (store : List Subscription) (token : String) (now1 now2 : Int)
    (res1 : UnsubscribeOutcome) (s1 : List Subscription) :
    ((∀ r ∈ store, r.unsubscribeToken ≠ token) →
       unsubscribeEmail store token now1 =
         ({ success := false, email := "", notFound := true,
            alreadyUnsubscribed := false }, store)) ∧
    (unsubscribeEmail store token now1 = (res1, s1) →
     res1.notFound = false →
     res1.alreadyUnsubscribed = false →
     unsubscribeEmail s1 token now2 =
       ({ success := true, email := res1.email, notFound := false,
          alreadyUnsubscribed := true }, s1)) := by
  constructor
  · intro h
    have hfind : store.find? (fun r => r.unsubscribeToken == token) = none := by
      rw [List.find?_eq_none]
      intro x hx
      simpa using h x hx
    simp [unsubscribeEmail, hfind]
  · intro e hnf hau
    rcases hfind : store.find? (fun r => r.unsubscribeToken == token) with _ | sub
    · rw [unsubscribeEmail, hfind] at e
      simp at e
      rw [← e.1] at hnf
      simp at hnf
    · rcases hst : sub.status with _ | _
      · -- subscribed: the first call flips the record in place
        rw [unsubscribeEmail, hfind] at e
        simp only [hst] at e
        simp at e
        obtain ⟨hres, hs1⟩ := e
        have hpf : ∀ a : Subscription, (a.unsubscribeToken == token) = true →
            (({ a with
                status := SubscriptionStatus.unsubscribed,
                unsubscribedAt := some now1, updatedAt := now1 } :
              Subscription).unsubscribeToken == token) = true := by
          intro a ha
          simpa using ha
        have hfind2 : s1.find? (fun r => r.unsubscribeToken == token) =
            some { sub with
                   status := SubscriptionStatus.unsubscribed,
                   unsubscribedAt := some now1, updatedAt := now1 } := by
          rw [← hs1, find?_updateFirst _ _ _ hpf, hfind]
          rfl
        rw [unsubscribeEmail, hfind2]
        simp [← hres]
      · -- already unsubscribed on the first call: contradicts hau
        rw [unsubscribeEmail, hfind] at e
        simp only [hst] at e
        simp at e
        rw [← e.1] at hau
        simp at hau

/-- Witness for C9: an unknown token on the one-record store, and a
double unsubscribe with the real token "tok0". -/
theorem unsubscribe_unknown_token_and_double_unsubscribe_witness :
    (unsubscribeEmail [wSub] "zzz" 5 =
       ({ success := false, email := "", notFound := true,
          alreadyUnsubscribed := false }, [wSub])) ∧
    (unsubscribeEmail (unsubscribeEmail [wSub] "tok0" 5).2 "tok0" 6 =
       ({ success := true, email := (unsubscribeEmail [wSub] "tok0" 5).1.email,
          notFound := false, alreadyUnsubscribed := true },
        (unsubscribeEmail [wSub] "tok0" 5).2)) :=
  ⟨(unsubscribe_unknown_token_and_double_unsubscribe [wSub] "zzz" 5 5
      { success := false, email := "", notFound := true, alreadyUnsubscribed := false }
      [wSub]).1 (by decide),
   (unsubscribe_unknown_token_and_double_unsubscribe [wSub] "tok0" 5 6
      (unsubscribeEmail [wSub] "tok0" 5).1 (unsubscribeEmail [wSub] "tok0" 5).2).2
      rfl (by decide) (by decide)⟩
